import Mathlib

/-!
Shallow embedding of `three_stage_ml_api.py` (class `ThreeStageWaterTreatmentML`):
the three stage optimizers (`optimize_primary_stage`, `optimize_secondary_stage`,
`optimize_tertiary_stage`), the reuse classifier (`_determine_reuse_category`)
and the system aggregator (`analyze_complete_system`).

Modelling conventions:
* Python floats are modelled as exact rationals (`ℚ`).  The `round(x, d)`
  calls in the source fix display precision only and are omitted, so every
  embedded value is the exact value of the source formula.
* A Python dict of sensor readings is a `List (String × ℚ)`; `dict.get(k, d)`
  is association-list lookup with a default, as in the source.
* Fallible code is embedded with `Except`: the efficiency ratios raise a
  Python `ZeroDivisionError` when their denominator (the stage's primary
  input metric) is zero, as would the ROI ratio if the daily cost were zero.
* The formatted message strings of a priority action (`action`, `current`,
  `target`) interpolate computed numbers and are presentation only; the
  embedding keeps the discriminating fields of each action: its priority,
  its fixed `reason` text, its fixed `estimated_time` text, and the `stage`
  stamp added by the aggregator.
* Python's `list.sort(key=...)` is a stable sort; it is embedded as a stable
  insertion sort (`sortActions`) on the same key.  Any two stable sorts by
  the same key agree on every list.
* The `equipment_control` blocks, the `adjustment` / `savings_potential`
  echo fields and the timestamp are plain data shaping not touched by any
  claim and are not embedded.
* The aggregator body is split into `build_system_report` (the returned
  dict) plus the surrounding `Except` plumbing in `analyze_complete_system`;
  together they are the body of the source's `analyze_complete_system`.
-/

/-- Source pattern `max(lo, min(hi, x))` used for every clamped value. -/
def clamp (lo hi x : ℚ) : ℚ := max lo (min hi x)

abbrev SensorData := List (String × ℚ)

/-- Source `sensor_data.get(key, default)`. -/
def SensorData.get (m : SensorData) (k : String) (d : ℚ) : ℚ := (m.lookup k).getD d

/-- Errors the Python code can raise (`ZeroDivisionError`), together with the
spec's `DivisionUndefined` label, which the code never produces. -/
inductive PyError where
  | ZeroDivisionError
  | DivisionUndefined
deriving DecidableEq

inductive Priority where
  | CRITICAL
  | HIGH
  | MEDIUM
  | LOW
deriving DecidableEq

/-- Source `priority_order = {'CRITICAL': 0, 'HIGH': 1, 'MEDIUM': 2, 'LOW': 3}`.
The source's `.get(x, 4)` default is unreachable because every generated
action carries one of the four listed priorities. -/
def priority_order : Priority → ℕ
  | .CRITICAL => 0
  | .HIGH => 1
  | .MEDIUM => 2
  | .LOW => 3

structure PriorityAction where
  priority : Priority
  reason : String
  estimated_time : String
  stage : String := ""
deriving DecidableEq

/-- Source `action['stage'] = stage_result['stage']`, performed at merge time. -/
def stampStage (st : String) (a : PriorityAction) : PriorityAction := { a with stage := st }

/-! ### Primary stage (solid removal) -/

structure PrimaryInput where
  turbidity_in : ℚ
  tss_in : ℚ
  flow_rate : ℚ
  ph : ℚ
  temperature : ℚ
  current_coagulant : ℚ
deriving DecidableEq, Inhabited

/-- Reads at the top of `optimize_primary_stage` (defaults 150, 180, 350,
7.0, 25) together with the `current_coagulant` read (default 45). -/
def readPrimary (m : SensorData) : PrimaryInput :=
  { turbidity_in := m.get "turbidity_in" 150
    tss_in := m.get "tss_in" 180
    flow_rate := m.get "flow_rate" 350
    ph := m.get "ph" 7.0
    temperature := m.get "temperature" 25
    current_coagulant := m.get "current_coagulant" 45 }

def optimal_coagulant (i : PrimaryInput) : ℚ :=
  clamp 20 70 (30 + (i.turbidity_in - 150) * 0.15 + (i.tss_in - 180) * 0.10 + (7.0 - i.ph) * 5.0)

def optimal_polymer (i : PrimaryInput) : ℚ :=
  clamp 1.5 4.0 (2.5 + (i.turbidity_in - 150) * 0.01)

def optimal_mixer_speed (i : PrimaryInput) : ℚ :=
  clamp 50 95 (70 + (i.tss_in - 180) * 0.15)

def optimal_settler_time (i : PrimaryInput) : ℚ :=
  clamp 2.0 3.5 (2.5 + (i.flow_rate - 350) * 0.005)

def predicted_turbidity_out (i : PrimaryInput) : ℚ :=
  clamp 5 40 (i.turbidity_in * 0.15 + (45 - optimal_coagulant i) * 0.3)

def predicted_tss_out (i : PrimaryInput) : ℚ :=
  clamp 8 35 (i.tss_in * 0.12 + (45 - optimal_coagulant i) * 0.25)

/-- Source `((tss_in - predicted_tss_out) / tss_in) * 100`; in the source the
division raises `ZeroDivisionError` when `tss_in = 0`, which
`optimize_primary_stage` models with its guard. -/
def predicted_efficiency_primary (i : PrimaryInput) : ℚ :=
  ((i.tss_in - predicted_tss_out i) / i.tss_in) * 100

/-- Source `'cost_per_hour': round(optimal_coagulant * 45, 2)`. -/
def coagulant_cost_per_hour (i : PrimaryInput) : ℚ := optimal_coagulant i * 45

/-- Source `'cost_per_hour': round(optimal_polymer * 200, 2)`. -/
def polymer_cost_per_hour (i : PrimaryInput) : ℚ := optimal_polymer i * 200

/-- Source `'status': 'OPTIMAL' if predicted_efficiency >= 85 else 'NEEDS_ATTENTION'`
inside `performance_metrics` of the primary stage.  The comparison constant
is 85 even though the recorded `target_efficiency` is 88.0. -/
def primary_status (i : PrimaryInput) : String :=
  if 85 ≤ predicted_efficiency_primary i then "OPTIMAL" else "NEEDS_ATTENTION"

def primary_actions (i : PrimaryInput) : List PriorityAction :=
  (if 3 < |optimal_coagulant i - i.current_coagulant| then
    [{ priority := if 8 < |optimal_coagulant i - i.current_coagulant| then .HIGH else .MEDIUM,
       reason := "Optimize solid removal efficiency", estimated_time := "15 minutes" }]
  else []) ++
  (if 15 < |optimal_mixer_speed i - 70| then
    [{ priority := .MEDIUM, reason := "Improve floc formation", estimated_time := "5 minutes" }]
  else []) ++
  (if 180 < i.turbidity_in then
    [{ priority := .HIGH, reason := "Prevent downstream overload", estimated_time := "Immediate" }]
  else [])

structure PrimaryResult where
  sensor_readings : PrimaryInput
  optimal_coagulant : ℚ
  optimal_polymer : ℚ
  optimal_mixer_speed : ℚ
  optimal_settler_time : ℚ
  coagulant_cost_per_hour : ℚ
  polymer_cost_per_hour : ℚ
  turbidity_out : ℚ
  tss_out : ℚ
  solid_removal_efficiency : ℚ
  priority_actions : List PriorityAction
  target_efficiency : ℚ
  status : String
deriving DecidableEq, Inhabited

def optimize_primary_stage (m : SensorData) : Except PyError PrimaryResult :=
  let i := readPrimary m
  if i.tss_in = 0 then .error .ZeroDivisionError
  else .ok
    { sensor_readings := i
      optimal_coagulant := optimal_coagulant i
      optimal_polymer := optimal_polymer i
      optimal_mixer_speed := optimal_mixer_speed i
      optimal_settler_time := optimal_settler_time i
      coagulant_cost_per_hour := coagulant_cost_per_hour i
      polymer_cost_per_hour := polymer_cost_per_hour i
      turbidity_out := predicted_turbidity_out i
      tss_out := predicted_tss_out i
      solid_removal_efficiency := predicted_efficiency_primary i
      priority_actions := primary_actions i
      target_efficiency := 88.0
      status := primary_status i }

/-! ### Secondary stage (organic removal) -/

structure SecondaryInput where
  bod_in : ℚ
  cod_in : ℚ
  dissolved_oxygen : ℚ
  ph : ℚ
  temperature : ℚ
  mlss : ℚ
deriving DecidableEq, Inhabited

/-- Reads at the top of `optimize_secondary_stage`; the source variable `do`
(a Lean keyword) is named `dissolved_oxygen`, matching the echo key. -/
def readSecondary (m : SensorData) : SecondaryInput :=
  { bod_in := m.get "bod_in" 250
    cod_in := m.get "cod_in" 450
    dissolved_oxygen := m.get "do" 6.5
    ph := m.get "ph" 7.2
    temperature := m.get "temperature" 25
    mlss := m.get "mlss" 3500 }

def optimal_aeration (i : SecondaryInput) : ℚ :=
  clamp 50 100 (75 + (6.5 - i.dissolved_oxygen) * 10 + (250 - i.bod_in) * 0.05)

def optimal_srt (i : SecondaryInput) : ℚ :=
  clamp 10 20 (15 + (i.mlss - 3500) * 0.002)

def predicted_bod_out (i : SecondaryInput) : ℚ :=
  clamp 10 40 (i.bod_in * 0.08 + (6.5 - i.dissolved_oxygen) * 2.0)

def predicted_cod_out (i : SecondaryInput) : ℚ :=
  clamp 30 70 (i.cod_in * 0.1 + (6.5 - i.dissolved_oxygen) * 3.0)

/-- Source `((bod_in - predicted_bod_out) / bod_in) * 100`. -/
def predicted_efficiency_secondary (i : SecondaryInput) : ℚ :=
  ((i.bod_in - predicted_bod_out i) / i.bod_in) * 100

/-- Source `'energy_cost_per_hour': round(optimal_aeration * 150 * 0.008, 2)`. -/
def energy_cost_per_hour (i : SecondaryInput) : ℚ := optimal_aeration i * 150 * 0.008

/-- Source `'do_status': 'OPTIMAL' if 5.0 <= do <= 7.5 else 'NEEDS_ATTENTION'`. -/
def do_status (i : SecondaryInput) : String :=
  if 5.0 ≤ i.dissolved_oxygen ∧ i.dissolved_oxygen ≤ 7.5 then "OPTIMAL" else "NEEDS_ATTENTION"

/-- Source `'biomass_status': 'OPTIMAL' if 3000 <= mlss <= 4000 else 'NEEDS_ATTENTION'`. -/
def biomass_status (i : SecondaryInput) : String :=
  if 3000 ≤ i.mlss ∧ i.mlss ≤ 4000 then "OPTIMAL" else "NEEDS_ATTENTION"

def secondary_actions (i : SecondaryInput) : List PriorityAction :=
  (if i.dissolved_oxygen < 4.0 then
    [{ priority := .CRITICAL, reason := "Low dissolved oxygen - risk of process failure",
       estimated_time := "Immediate - 30 minutes to stabilize" }]
  else if 8.0 < i.dissolved_oxygen then
    [{ priority := .MEDIUM, reason := "Energy optimization opportunity",
       estimated_time := "15 minutes" }]
  else []) ++
  (if 300 < i.bod_in then
    [{ priority := .HIGH, reason := "Prevent process overload", estimated_time := "2-4 hours" }]
  else []) ++
  (if i.mlss < 2500 then
    [{ priority := .MEDIUM, reason := "Maintain biomass concentration",
       estimated_time := "24-48 hours" }]
  else [])

structure SecondaryResult where
  sensor_readings : SecondaryInput
  optimal_aeration : ℚ
  optimal_srt : ℚ
  energy_cost_per_hour : ℚ
  bod_out : ℚ
  cod_out : ℚ
  organic_removal_efficiency : ℚ
  priority_actions : List PriorityAction
  target_efficiency : ℚ
  do_status : String
  biomass_status : String
deriving DecidableEq, Inhabited

def optimize_secondary_stage (m : SensorData) : Except PyError SecondaryResult :=
  let i := readSecondary m
  if i.bod_in = 0 then .error .ZeroDivisionError
  else .ok
    { sensor_readings := i
      optimal_aeration := optimal_aeration i
      optimal_srt := optimal_srt i
      energy_cost_per_hour := energy_cost_per_hour i
      bod_out := predicted_bod_out i
      cod_out := predicted_cod_out i
      organic_removal_efficiency := predicted_efficiency_secondary i
      priority_actions := secondary_actions i
      target_efficiency := 92.0
      do_status := do_status i
      biomass_status := biomass_status i }

/-! ### Reuse classifier and tertiary stage (nutrient removal) -/

structure ReuseClassification where
  grade : String
  category : String
  value_per_m3 : ℚ
  compliance : String
deriving DecidableEq, Inhabited

/-- Source `_determine_reuse_category(nitrogen, phosphorus, pathogens,
turbidity)`: four bands checked top-down, Grade D is the catch-all.  The
`uses` lists are constant strings and not embedded. -/
def determine_reuse_category (nitrogen phosphorus pathogens turbidity : ℚ) :
    ReuseClassification :=
  if pathogens < 2 ∧ nitrogen < 5 ∧ phosphorus < 1 ∧ turbidity < 2 then
    { grade := "A", category := "Industrial Process Water", value_per_m3 := 15,
      compliance := "Meets highest reuse standards" }
  else if pathogens < 5 ∧ nitrogen < 8 ∧ phosphorus < 1.5 ∧ turbidity < 5 then
    { grade := "B", category := "Irrigation Water", value_per_m3 := 10,
      compliance := "Suitable for agricultural use" }
  else if pathogens < 10 ∧ nitrogen < 10 then
    { grade := "C", category := "Industrial Cooling", value_per_m3 := 5,
      compliance := "Industrial use approved" }
  else
    { grade := "D", category := "Restricted Use", value_per_m3 := 2,
      compliance := "Requires further treatment for reuse" }

structure TertiaryInput where
  nitrogen_in : ℚ
  phosphorus_in : ℚ
  turbidity_in : ℚ
  pathogens_in : ℚ
  ph : ℚ
  current_chlorine : ℚ
deriving DecidableEq, Inhabited

/-- Reads at the top of `optimize_tertiary_stage` (defaults 35, 8, 8, 1000,
7.2) together with the `current_chlorine` read (default 3.5). -/
def readTertiary (m : SensorData) : TertiaryInput :=
  { nitrogen_in := m.get "nitrogen_in" 35
    phosphorus_in := m.get "phosphorus_in" 8
    turbidity_in := m.get "turbidity_in" 8
    pathogens_in := m.get "pathogens_in" 1000
    ph := m.get "ph" 7.2
    current_chlorine := m.get "current_chlorine" 3.5 }

def optimal_chlorine (i : TertiaryInput) : ℚ :=
  clamp 2.0 5.0 (3.0 + (i.pathogens_in - 1000) * 0.001 + (i.turbidity_in - 8) * 0.1)

def optimal_uv (i : TertiaryInput) : ℚ :=
  clamp 60 100 (80 + (i.pathogens_in - 1000) * 0.01)

def optimal_membrane_pressure (i : TertiaryInput) : ℚ :=
  clamp 2.0 3.5 (2.5 + (i.nitrogen_in - 35) * 0.01)

def predicted_nitrogen_out (i : TertiaryInput) : ℚ :=
  clamp 2 10 (i.nitrogen_in * 0.15)

def predicted_phosphorus_out (i : TertiaryInput) : ℚ :=
  clamp 0.5 2 (i.phosphorus_in * 0.1)

def predicted_pathogens_out (i : TertiaryInput) : ℚ :=
  clamp 0 10 (i.pathogens_in * 0.001 + (3.5 - optimal_chlorine i) * 5)

/-- Source `'turbidity_out': round(turbidity_in * 0.2, 2)` in the tertiary
`predicted_outputs` block: computed with NO clamp, unlike every other
predicted-output concentration. -/
def tertiary_turbidity_out (i : TertiaryInput) : ℚ := i.turbidity_in * 0.2

/-- Source `((nitrogen_in - predicted_nitrogen_out) / nitrogen_in) * 100`. -/
def predicted_efficiency_tertiary (i : TertiaryInput) : ℚ :=
  ((i.nitrogen_in - predicted_nitrogen_out i) / i.nitrogen_in) * 100

/-- Source `'cost_per_hour': round(optimal_chlorine * 150, 2)`. -/
def chlorine_cost_per_hour (i : TertiaryInput) : ℚ := optimal_chlorine i * 150

/-- Source call `self._determine_reuse_category(predicted_nitrogen_out,
predicted_phosphorus_out, predicted_pathogens_out, turbidity_in * 0.2)`. -/
def tertiary_reuse (i : TertiaryInput) : ReuseClassification :=
  determine_reuse_category (predicted_nitrogen_out i) (predicted_phosphorus_out i)
    (predicted_pathogens_out i) (i.turbidity_in * 0.2)

/-- Source `'disinfection_status': 'OPTIMAL' if predicted_pathogens_out < 5 else ...`. -/
def disinfection_status (i : TertiaryInput) : String :=
  if predicted_pathogens_out i < 5 then "OPTIMAL" else "NEEDS_ATTENTION"

/-- Source `'nutrient_status': 'OPTIMAL' if predicted_nitrogen_out < 8 else ...`. -/
def nutrient_status (i : TertiaryInput) : String :=
  if predicted_nitrogen_out i < 8 then "OPTIMAL" else "NEEDS_ATTENTION"

def tertiary_actions (i : TertiaryInput) : List PriorityAction :=
  (if 0.5 < |optimal_chlorine i - i.current_chlorine| then
    [{ priority := .HIGH, reason := "Optimize pathogen removal", estimated_time := "10 minutes" }]
  else []) ++
  (if 1500 < i.pathogens_in then
    [{ priority := .CRITICAL, reason := "Ensure disinfection standards",
       estimated_time := "Immediate" }]
  else []) ++
  (if 40 < i.nitrogen_in then
    [{ priority := .MEDIUM, reason := "Maintain nutrient removal efficiency",
       estimated_time := "1 hour - investigate" }]
  else [])

structure TertiaryResult where
  sensor_readings : TertiaryInput
  optimal_chlorine : ℚ
  optimal_uv : ℚ
  optimal_membrane_pressure : ℚ
  chlorine_cost_per_hour : ℚ
  nitrogen_out : ℚ
  phosphorus_out : ℚ
  pathogens_out : ℚ
  turbidity_out : ℚ
  nutrient_removal_efficiency : ℚ
  reuse_classification : ReuseClassification
  priority_actions : List PriorityAction
  target_efficiency : ℚ
  disinfection_status : String
  nutrient_status : String
deriving DecidableEq, Inhabited

def optimize_tertiary_stage (m : SensorData) : Except PyError TertiaryResult :=
  let i := readTertiary m
  if i.nitrogen_in = 0 then .error .ZeroDivisionError
  else .ok
    { sensor_readings := i
      optimal_chlorine := optimal_chlorine i
      optimal_uv := optimal_uv i
      optimal_membrane_pressure := optimal_membrane_pressure i
      chlorine_cost_per_hour := chlorine_cost_per_hour i
      nitrogen_out := predicted_nitrogen_out i
      phosphorus_out := predicted_phosphorus_out i
      pathogens_out := predicted_pathogens_out i
      turbidity_out := tertiary_turbidity_out i
      nutrient_removal_efficiency := predicted_efficiency_tertiary i
      reuse_classification := tertiary_reuse i
      priority_actions := tertiary_actions i
      target_efficiency := 85.0
      disinfection_status := disinfection_status i
      nutrient_status := nutrient_status i }

/-! ### System aggregator -/

/-- Sort key of `all_actions.sort(key=lambda x: priority_order.get(x['priority'], 4))`. -/
def rankOf (a : PriorityAction) : ℕ := priority_order a.priority

/-- Stable insertion of an action into an already sorted list: the new
element goes before the first element of greater-or-equal rank, so elements
inserted later from the left keep their original relative order. -/
def insertRank (a : PriorityAction) : List PriorityAction → List PriorityAction
  | [] => [a]
  | b :: l => if rankOf a ≤ rankOf b then a :: b :: l else b :: insertRank a l

/-- Stable sort by `rankOf`, embedding Python's stable `list.sort`. -/
def sortActions : List PriorityAction → List PriorityAction
  | [] => []
  | a :: l => insertRank a (sortActions l)

/-- Source loop over `[primary, secondary, tertiary]` that stamps each
action with its stage and appends it to `all_actions`. -/
def all_actions (pa sa ta : List PriorityAction) : List PriorityAction :=
  pa.map (stampStage "PRIMARY") ++ sa.map (stampStage "SECONDARY") ++
    ta.map (stampStage "TERTIARY")

/-- Source `all_actions.sort(key=...)` followed by `all_actions[:10]`. -/
def consolidated_actions (pa sa ta : List PriorityAction) : List PriorityAction :=
  (sortActions (all_actions pa sa ta)).take 10

/-- Source `total_efficiency = primary_eff * 0.3 + secondary_eff * 0.4 + tertiary_eff * 0.3`. -/
def total_efficiency (p s t : ℚ) : ℚ := p * 0.3 + s * 0.4 + t * 0.3

/-- Source `'system_status': 'OPTIMAL' if total_efficiency >= 90 else 'ATTENTION_REQUIRED'`. -/
def system_status (e : ℚ) : String := if 90 ≤ e then "OPTIMAL" else "ATTENTION_REQUIRED"

structure Bundle where
  primary : SensorData
  secondary : SensorData
  tertiary : SensorData

/-- Daily operating cost of the aggregator, as a function of the three typed
stage inputs: `(total_chemical_cost + total_energy_cost) * 24`, where the
chemical cost sums the primary coagulant and polymer and the tertiary
chlorine hourly costs. -/
def daily_operational_cost (p : PrimaryInput) (s : SecondaryInput) (t : TertiaryInput) : ℚ :=
  ((coagulant_cost_per_hour p + polymer_cost_per_hour p + chlorine_cost_per_hour t)
    + energy_cost_per_hour s) * 24

/-- Source `water_treated_m3_day = mqtt_sensor_data.get('primary', {}).get('flow_rate', 350) * 24`. -/
def water_treated_m3_day (b : Bundle) : ℚ := b.primary.get "flow_rate" 350 * 24

/-- Source `water_reuse_value = water_treated_m3_day * tertiary['reuse_classification']['value_per_m3']`. -/
def water_reuse_value (b : Bundle) (t : TertiaryInput) : ℚ :=
  water_treated_m3_day b * (tertiary_reuse t).value_per_m3

structure EconomicAnalysis where
  daily_operational_cost : ℚ
  water_treated_m3_day : ℚ
  water_reuse_value : ℚ
  net_benefit : ℚ
  roi_percentage : ℚ
deriving DecidableEq, Inhabited

structure EnvironmentalImpact where
  fresh_water_saved : ℚ
  co2_reduction : ℚ
  compliance_status : String
deriving DecidableEq, Inhabited

structure SystemReport where
  system_status : String
  overall_efficiency : ℚ
  primary : PrimaryResult
  secondary : SecondaryResult
  tertiary : TertiaryResult
  consolidated_actions : List PriorityAction
  economic_analysis : EconomicAnalysis
  environmental_impact : EnvironmentalImpact
deriving DecidableEq, Inhabited

/-- Returned dict of `analyze_complete_system`, as a function of the bundle
and the three stage results.  The ROI division is total here (`ℚ` division);
`analyze_complete_system` raises instead of building the report when the
daily cost is zero, as Python would at the `roi_percentage` entry. -/
def build_system_report (b : Bundle) (p : PrimaryResult) (s : SecondaryResult)
    (t : TertiaryResult) : SystemReport :=
  let total_eff := total_efficiency p.solid_removal_efficiency
    s.organic_removal_efficiency t.nutrient_removal_efficiency
  let daily_cost := ((p.coagulant_cost_per_hour + p.polymer_cost_per_hour
    + t.chlorine_cost_per_hour) + s.energy_cost_per_hour) * 24
  let water := b.primary.get "flow_rate" 350 * 24
  let reuse_val := water * t.reuse_classification.value_per_m3
  { system_status := system_status total_eff
    overall_efficiency := total_eff
    primary := p
    secondary := s
    tertiary := t
    consolidated_actions := consolidated_actions p.priority_actions s.priority_actions
      t.priority_actions
    economic_analysis :=
      { daily_operational_cost := daily_cost
        water_treated_m3_day := water
        water_reuse_value := reuse_val
        net_benefit := reuse_val - daily_cost
        roi_percentage := (reuse_val / daily_cost - 1) * 100 }
    environmental_impact :=
      { fresh_water_saved := water * 0.75
        co2_reduction := water * 0.5
        compliance_status := if 88 ≤ total_eff then "COMPLIANT" else "REVIEW_REQUIRED" } }

def analyze_complete_system (b : Bundle) : Except PyError SystemReport := do
  let p ← optimize_primary_stage b.primary
  let s ← optimize_secondary_stage b.secondary
  let t ← optimize_tertiary_stage b.tertiary
  let r := build_system_report b p s t
  if r.economic_analysis.daily_operational_cost = 0 then .error .ZeroDivisionError
  else .ok r

/-! ### Test fixtures -/

def bundle0 : Bundle := { primary := [], secondary := [], tertiary := [] }

/-- Arbitrary priority action of the shape the primary turbidity rule emits. -/
def actHighPrimary : PriorityAction :=
  { priority := .HIGH, reason := "Prevent downstream overload", estimated_time := "Immediate" }

/-- Arbitrary priority action of the shape the secondary low-oxygen rule emits. -/
def actCriticalSecondary : PriorityAction :=
  { priority := .CRITICAL, reason := "Low dissolved oxygen - risk of process failure",
    estimated_time := "Immediate - 30 minutes to stabilize" }

/-- Arbitrary priority action of the shape the secondary biomass rule emits. -/
def actMediumSecondary : PriorityAction :=
  { priority := .MEDIUM, reason := "Maintain biomass concentration",
    estimated_time := "24-48 hours" }

/-- Arbitrary priority action of the shape the tertiary chlorine rule emits. -/
def actHighTertiary : PriorityAction :=
  { priority := .HIGH, reason := "Optimize pathogen removal", estimated_time := "10 minutes" }

/-- Default-input primary reading, the value of `readPrimary []`. -/
def primaryInputDefault : PrimaryInput :=
  { turbidity_in := 150, tss_in := 180, flow_rate := 350, ph := 7,
    temperature := 25, current_coagulant := 45 }

/-- Default-input secondary reading, the value of `readSecondary []`. -/
def secondaryInputDefault : SecondaryInput :=
  { bod_in := 250, cod_in := 450, dissolved_oxygen := 6.5, ph := 7.2,
    temperature := 25, mlss := 3500 }

/-- Default-input tertiary reading, the value of `readTertiary []`. -/
def tertiaryInputDefault : TertiaryInput :=
  { nitrogen_in := 35, phosphorus_in := 8, turbidity_in := 8,
    pathogens_in := 1000, ph := 7.2, current_chlorine := 3.5 }

/-- Reuse classification fixture, the Grade B record of the classifier. -/
def reuseFixtureB : ReuseClassification :=
  { grade := "B", category := "Irrigation Water", value_per_m3 := 10,
    compliance := "Suitable for agricultural use" }

/-- Arbitrary priority action of the shape the primary coagulant rule emits. -/
def actCoagulantPrimary : PriorityAction :=
  { priority := .HIGH, reason := "Optimize solid removal efficiency",
    estimated_time := "15 minutes" }

/-- Stage result fixture carrying the default-input primary values. -/
def primaryFixture : PrimaryResult :=
  { sensor_readings := primaryInputDefault
    optimal_coagulant := 30
    optimal_polymer := 2.5
    optimal_mixer_speed := 70
    optimal_settler_time := 2.5
    coagulant_cost_per_hour := 1350
    polymer_cost_per_hour := 500
    turbidity_out := 27
    tss_out := 25.35
    solid_removal_efficiency := 1031 / 12
    priority_actions := [actCoagulantPrimary]
    target_efficiency := 88
    status := "OPTIMAL" }

/-- Stage result fixture carrying the default-input secondary values. -/
def secondaryFixture : SecondaryResult :=
  { sensor_readings := secondaryInputDefault
    optimal_aeration := 75
    optimal_srt := 15
    energy_cost_per_hour := 90
    bod_out := 20
    cod_out := 45
    organic_removal_efficiency := 92
    priority_actions := []
    target_efficiency := 92
    do_status := "OPTIMAL"
    biomass_status := "OPTIMAL" }

/-- Stage result fixture carrying the default-input tertiary values. -/
def tertiaryFixture : TertiaryResult :=
  { sensor_readings := tertiaryInputDefault
    optimal_chlorine := 3
    optimal_uv := 80
    optimal_membrane_pressure := 2.5
    chlorine_cost_per_hour := 450
    nitrogen_out := 5.25
    phosphorus_out := 0.8
    pathogens_out := 3.5
    turbidity_out := 1.6
    nutrient_removal_efficiency := 85
    reuse_classification := reuseFixtureB
    priority_actions := []
    target_efficiency := 85
    disinfection_status := "OPTIMAL"
    nutrient_status := "OPTIMAL" }

/-! ### Helper lemmas -/

lemma clamp_mem (lo hi x : ℚ) (h : lo ≤ hi) : lo ≤ clamp lo hi x ∧ clamp lo hi x ≤ hi :=
  ⟨le_max_left lo _, max_le h (min_le_left hi x)⟩

lemma length_insertRank (a : PriorityAction) (l : List PriorityAction) :
    (insertRank a l).length = l.length + 1 := by
  induction l with
  | nil => rfl
  | cons b l ih =>
    unfold insertRank
    split
    · simp
    · simp [ih]

lemma length_sortActions (l : List PriorityAction) : (sortActions l).length = l.length := by
  induction l with
  | nil => rfl
  | cons a l ih =>
    unfold sortActions
    rw [length_insertRank, ih, List.length_cons]

lemma mem_insertRank {x a : PriorityAction} {l : List PriorityAction} :
    x ∈ insertRank a l ↔ x = a ∨ x ∈ l := by
  induction l with
  | nil => simp [insertRank]
  | cons b l ih =>
    unfold insertRank
    split
    · simp [List.mem_cons]
    · simp [List.mem_cons, ih]
      tauto

lemma mem_sortActions {x : PriorityAction} {l : List PriorityAction} :
    x ∈ sortActions l ↔ x ∈ l := by
  induction l with
  | nil => simp [sortActions]
  | cons a l ih =>
    unfold sortActions
    rw [mem_insertRank, ih, List.mem_cons]

lemma filter_insertRank_eq (a : PriorityAction) (l : List PriorityAction) (n : ℕ)
    (h : rankOf a = n) :
    (insertRank a l).filter (fun b => rankOf b == n) =
      a :: l.filter (fun b => rankOf b == n) := by
  induction l with
  | nil => simp [insertRank, h]
  | cons b l ih =>
    unfold insertRank
    split
    · next hc => simp [List.filter_cons, h]
    · next hc =>
      have hbn : ¬ rankOf b = n := by omega
      simp [List.filter_cons, hbn, ih, h]

lemma filter_insertRank_ne (a : PriorityAction) (l : List PriorityAction) (n : ℕ)
    (h : ¬ rankOf a = n) :
    (insertRank a l).filter (fun b => rankOf b == n) =
      l.filter (fun b => rankOf b == n) := by
  induction l with
  | nil => simp [insertRank, h]
  | cons b l ih =>
    unfold insertRank
    split
    · simp [List.filter_cons, h]
    · simp [List.filter_cons, ih]

lemma sortActions_filter (l : List PriorityAction) (n : ℕ) :
    (sortActions l).filter (fun b => rankOf b == n) =
      l.filter (fun b => rankOf b == n) := by
  induction l with
  | nil => rfl
  | cons a l ih =>
    unfold sortActions
    by_cases h : rankOf a = n
    · rw [filter_insertRank_eq a _ n h, ih, List.filter_cons]
      simp [h]
    · rw [filter_insertRank_ne a _ n h, ih, List.filter_cons]
      simp [h]

lemma pairwise_insertRank (a : PriorityAction) (l : List PriorityAction)
    (h : l.Pairwise (fun x y => rankOf x ≤ rankOf y)) :
    (insertRank a l).Pairwise (fun x y => rankOf x ≤ rankOf y) := by
  induction l with
  | nil => simp [insertRank]
  | cons b l ih =>
    rw [List.pairwise_cons] at h
    obtain ⟨hb, hl⟩ := h
    unfold insertRank
    split
    · next hc =>
      rw [List.pairwise_cons]
      refine ⟨?_, List.pairwise_cons.mpr ⟨hb, hl⟩⟩
      intro x hx
      rcases List.mem_cons.mp hx with rfl | hxl
      · exact hc
      · exact le_trans hc (hb x hxl)
    · next hc =>
      rw [List.pairwise_cons]
      refine ⟨?_, ih hl⟩
      intro x hx
      rcases mem_insertRank.mp hx with rfl | hxl
      · exact le_of_not_le hc
      · exact hb x hxl

lemma sortActions_pairwise (l : List PriorityAction) :
    (sortActions l).Pairwise (fun x y => rankOf x ≤ rankOf y) := by
  induction l with
  | nil => simp [sortActions]
  | cons a l ih =>
    unfold sortActions
    exact pairwise_insertRank a _ ih

lemma daily_cost_lower (p : PrimaryInput) (s : SecondaryInput) (t : TertiaryInput) :
    37440 ≤ daily_operational_cost p s t := by
  have h1 : (20:ℚ) ≤ optimal_coagulant p := (clamp_mem 20 70 _ (by norm_num)).1
  have h2 : (1.5:ℚ) ≤ optimal_polymer p := (clamp_mem 1.5 4.0 _ (by norm_num)).1
  have h3 : (2.0:ℚ) ≤ optimal_chlorine t := (clamp_mem 2.0 5.0 _ (by norm_num)).1
  have h4 : (50:ℚ) ≤ optimal_aeration s := (clamp_mem 50 100 _ (by norm_num)).1
  unfold daily_operational_cost coagulant_cost_per_hour polymer_cost_per_hour
    chlorine_cost_per_hour energy_cost_per_hour
  nlinarith [h1, h2, h3, h4]

lemma readPrimary_nil : readPrimary [] = primaryInputDefault := by
  unfold readPrimary primaryInputDefault SensorData.get
  norm_num [List.lookup]

lemma primary_actions_length (i : PrimaryInput) : (primary_actions i).length ≤ 3 := by
  unfold primary_actions
  split_ifs <;> simp

lemma secondary_actions_length (i : SecondaryInput) : (secondary_actions i).length ≤ 3 := by
  unfold secondary_actions
  split_ifs <;> simp

lemma tertiary_actions_length (i : TertiaryInput) : (tertiary_actions i).length ≤ 3 := by
  unfold tertiary_actions
  split_ifs <;> simp

lemma consolidated_eq_sort (pa sa ta : List PriorityAction)
    (h1 : pa.length ≤ 3) (h2 : sa.length ≤ 3) (h3 : ta.length ≤ 3) :
    consolidated_actions pa sa ta = sortActions (all_actions pa sa ta) := by
  unfold consolidated_actions
  apply List.take_of_length_le
  rw [length_sortActions]
  unfold all_actions
  simp [List.length_append]
  omega

/-! ### Claims -/

/-- Claim C1, counterexample.  The claim says every field of the
PredictedOutput block lies within its declared closed interval; but the
tertiary `turbidity_out` field is computed with no clamp, so there is no
fixed closed interval containing it for all inputs. -/
theorem claim_C1_counterexample :
    ¬ ∃ lo hi : ℚ, ∀ i : TertiaryInput,
      lo ≤ tertiary_turbidity_out i ∧ tertiary_turbidity_out i ≤ hi := by
  rintro ⟨lo, hi, h⟩
  have h2 : tertiary_turbidity_out
      { nitrogen_in := 35, phosphorus_in := 8, turbidity_in := 5 * (hi + 1),
        pathogens_in := 1000, ph := 7.2, current_chlorine := 3.5 } ≤ hi :=
    (h _).2
  unfold tertiary_turbidity_out at h2
  simp only at h2
  norm_num at h2
  linarith

/-- Claim C1, amended.  For all inputs, every one of the nine setpoints and
every interval-clamped predicted-output field (primary `turbidity_out` and
`tss_out`, secondary `bod_out` and `cod_out`, tertiary `nitrogen_out`,
`phosphorus_out` and `pathogens_out`) lies within its declared closed
interval; the tertiary `turbidity_out` is computed without clamping (it is
exactly `turbidity_in * 0.2`), and the efficiency fields carry no declared
interval. -/
theorem claim_C1_amended :
    (∀ i : PrimaryInput,
      20 ≤ optimal_coagulant i ∧ optimal_coagulant i ≤ 70 ∧
      1.5 ≤ optimal_polymer i ∧ optimal_polymer i ≤ 4.0 ∧
      50 ≤ optimal_mixer_speed i ∧ optimal_mixer_speed i ≤ 95 ∧
      2.0 ≤ optimal_settler_time i ∧ optimal_settler_time i ≤ 3.5 ∧
      5 ≤ predicted_turbidity_out i ∧ predicted_turbidity_out i ≤ 40 ∧
      8 ≤ predicted_tss_out i ∧ predicted_tss_out i ≤ 35) ∧
    (∀ i : SecondaryInput,
      50 ≤ optimal_aeration i ∧ optimal_aeration i ≤ 100 ∧
      10 ≤ optimal_srt i ∧ optimal_srt i ≤ 20 ∧
      10 ≤ predicted_bod_out i ∧ predicted_bod_out i ≤ 40 ∧
      30 ≤ predicted_cod_out i ∧ predicted_cod_out i ≤ 70) ∧
    (∀ i : TertiaryInput,
      2.0 ≤ optimal_chlorine i ∧ optimal_chlorine i ≤ 5.0 ∧
      60 ≤ optimal_uv i ∧ optimal_uv i ≤ 100 ∧
      2.0 ≤ optimal_membrane_pressure i ∧ optimal_membrane_pressure i ≤ 3.5 ∧
      2 ≤ predicted_nitrogen_out i ∧ predicted_nitrogen_out i ≤ 10 ∧
      0.5 ≤ predicted_phosphorus_out i ∧ predicted_phosphorus_out i ≤ 2 ∧
      0 ≤ predicted_pathogens_out i ∧ predicted_pathogens_out i ≤ 10 ∧
      tertiary_turbidity_out i = i.turbidity_in * 0.2) := by
  refine ⟨fun i => ?_, fun i => ?_, fun i => ?_⟩
  · exact ⟨(clamp_mem 20 70 _ (by norm_num)).1, (clamp_mem 20 70 _ (by norm_num)).2,
      (clamp_mem 1.5 4.0 _ (by norm_num)).1, (clamp_mem 1.5 4.0 _ (by norm_num)).2,
      (clamp_mem 50 95 _ (by norm_num)).1, (clamp_mem 50 95 _ (by norm_num)).2,
      (clamp_mem 2.0 3.5 _ (by norm_num)).1, (clamp_mem 2.0 3.5 _ (by norm_num)).2,
      (clamp_mem 5 40 _ (by norm_num)).1, (clamp_mem 5 40 _ (by norm_num)).2,
      (clamp_mem 8 35 _ (by norm_num)).1, (clamp_mem 8 35 _ (by norm_num)).2⟩
  · exact ⟨(clamp_mem 50 100 _ (by norm_num)).1, (clamp_mem 50 100 _ (by norm_num)).2,
      (clamp_mem 10 20 _ (by norm_num)).1, (clamp_mem 10 20 _ (by norm_num)).2,
      (clamp_mem 10 40 _ (by norm_num)).1, (clamp_mem 10 40 _ (by norm_num)).2,
      (clamp_mem 30 70 _ (by norm_num)).1, (clamp_mem 30 70 _ (by norm_num)).2⟩
  · exact ⟨(clamp_mem 2.0 5.0 _ (by norm_num)).1, (clamp_mem 2.0 5.0 _ (by norm_num)).2,
      (clamp_mem 60 100 _ (by norm_num)).1, (clamp_mem 60 100 _ (by norm_num)).2,
      (clamp_mem 2.0 3.5 _ (by norm_num)).1, (clamp_mem 2.0 3.5 _ (by norm_num)).2,
      (clamp_mem 2 10 _ (by norm_num)).1, (clamp_mem 2 10 _ (by norm_num)).2,
      (clamp_mem 0.5 2 _ (by norm_num)).1, (clamp_mem 0.5 2 _ (by norm_num)).2,
      (clamp_mem 0 10 _ (by norm_num)).1, (clamp_mem 0 10 _ (by norm_num)).2, rfl⟩

/-- Claim C2, counterexample.  The classifier on
`nitrogen=4, phosphorus=1.2, pathogens=3, turbidity=1` returns Grade B,
not the claimed Grade A (pathogens 3 fails `pathogens < 2` and phosphorus
1.2 fails `phosphorus < 1`); and the input `(0, 0, 0, 0)` satisfies both
the Grade-B and Grade-C thresholds yet classifies as Grade A, not the
claimed Grade B, because it also satisfies the stricter Grade-A band. -/
theorem claim_C2_counterexample :
    (determine_reuse_category 4 1.2 3 1).grade ≠ "A" ∧
    ((0:ℚ) < 5 ∧ (0:ℚ) < 8 ∧ (0:ℚ) < 1.5 ∧ (0:ℚ) < 5) ∧
    ((0:ℚ) < 10 ∧ (0:ℚ) < 10) ∧
    (determine_reuse_category 0 0 0 0).grade ≠ "B" := by
  refine ⟨?_, by norm_num, by norm_num, ?_⟩ <;> (norm_num [determine_reuse_category]; decide)

/-- Claim C2, amended.  The classifier checks the bands strictly in order
A, B, C, D and returns the first whose threshold conditions all hold (four
conditions for A and for B, two for C: `pathogens < 10` and
`nitrogen < 10`), falling through to Grade D; the input
`nitrogen=4, phosphorus=1.2, pathogens=3, turbidity=1` yields Grade B (not
A), the input `nitrogen=7, phosphorus=1.2, pathogens=4, turbidity=4`
yields Grade B, and any input satisfying the Grade-B thresholds but not
the Grade-A thresholds yields Grade B. -/
theorem claim_C2_amended :
    (determine_reuse_category 4 1.2 3 1).grade = "B" ∧
    (determine_reuse_category 7 1.2 4 4).grade = "B" ∧
    (∀ n p pa t : ℚ, (pa < 2 ∧ n < 5 ∧ p < 1 ∧ t < 2) →
      (determine_reuse_category n p pa t).grade = "A") ∧
    (∀ n p pa t : ℚ, ¬ (pa < 2 ∧ n < 5 ∧ p < 1 ∧ t < 2) →
      (pa < 5 ∧ n < 8 ∧ p < 1.5 ∧ t < 5) →
      (determine_reuse_category n p pa t).grade = "B") ∧
    (∀ n p pa t : ℚ, ¬ (pa < 2 ∧ n < 5 ∧ p < 1 ∧ t < 2) →
      ¬ (pa < 5 ∧ n < 8 ∧ p < 1.5 ∧ t < 5) →
      (pa < 10 ∧ n < 10) →
      (determine_reuse_category n p pa t).grade = "C") ∧
    (∀ n p pa t : ℚ, ¬ (pa < 2 ∧ n < 5 ∧ p < 1 ∧ t < 2) →
      ¬ (pa < 5 ∧ n < 8 ∧ p < 1.5 ∧ t < 5) →
      ¬ (pa < 10 ∧ n < 10) →
      (determine_reuse_category n p pa t).grade = "D") := by
  refine ⟨by norm_num [determine_reuse_category], by norm_num [determine_reuse_category],
    fun n p pa t h1 => ?_, fun n p pa t h1 h2 => ?_,
    fun n p pa t h1 h2 h3 => ?_, fun n p pa t h1 h2 h3 => ?_⟩
  · unfold determine_reuse_category
    rw [if_pos h1]
  · unfold determine_reuse_category
    rw [if_neg h1, if_pos h2]
  · unfold determine_reuse_category
    rw [if_neg h1, if_neg h2, if_pos h3]
  · unfold determine_reuse_category
    rw [if_neg h1, if_neg h2, if_neg h3]

/-- Claim C2, witness for the amended theorem: the second test vector
satisfies the Grade-B band but not the Grade-A band, and classifies as B. -/
theorem claim_C2_witness :
    ¬ ((4:ℚ) < 2 ∧ (7:ℚ) < 5 ∧ (1.2:ℚ) < 1 ∧ (4:ℚ) < 2) ∧
    ((4:ℚ) < 5 ∧ (7:ℚ) < 8 ∧ (1.2:ℚ) < 1.5 ∧ (4:ℚ) < 5) ∧
    (determine_reuse_category 7 1.2 4 4).grade = "B" :=
  ⟨by norm_num, by norm_num,
    claim_C2_amended.2.2.2.1 7 1.2 4 4 (by norm_num) (by norm_num)⟩

/-- Claim C3, counterexample.  On the all-defaults primary input the
predicted efficiency is 1031/12 ≈ 85.9, strictly below the stage's
efficiency target of 88, yet the performance-status tag is `OPTIMAL`,
because the source compares against the constant 85, not the target. -/
theorem claim_C3_counterexample :
    primary_status (readPrimary []) = "OPTIMAL" ∧
    predicted_efficiency_primary (readPrimary []) < 88 := by
  rw [readPrimary_nil]
  have he : predicted_efficiency_primary primaryInputDefault = 1031 / 12 := by
    unfold predicted_efficiency_primary predicted_tss_out optimal_coagulant
      primaryInputDefault clamp
    norm_num [max_def, min_def]
  constructor
  · unfold primary_status
    rw [he]
    norm_num
  · rw [he]
    norm_num

/-- Claim C3, amended.  Only the Primary stage carries an efficiency-based
performance-status tag, and it is `OPTIMAL` exactly when the predicted
efficiency is at least 85 (while the recorded `target_efficiency` is 88);
the Secondary stage instead carries `do_status` (dissolved oxygen within
[5, 7.5]) and `biomass_status` (MLSS within [3000, 4000]), and the
Tertiary stage carries `disinfection_status` (predicted pathogens below 5)
and `nutrient_status` (predicted nitrogen below 8); the recorded
per-stage targets are 88, 92 and 85 but are never compared against. -/
theorem claim_C3_amended :
    (∀ i : PrimaryInput, primary_status i = "OPTIMAL" ↔ 85 ≤ predicted_efficiency_primary i) ∧
    (∀ i : SecondaryInput,
      do_status i = "OPTIMAL" ↔ 5.0 ≤ i.dissolved_oxygen ∧ i.dissolved_oxygen ≤ 7.5) ∧
    (∀ i : SecondaryInput, biomass_status i = "OPTIMAL" ↔ 3000 ≤ i.mlss ∧ i.mlss ≤ 4000) ∧
    (∀ i : TertiaryInput, disinfection_status i = "OPTIMAL" ↔ predicted_pathogens_out i < 5) ∧
    (∀ i : TertiaryInput, nutrient_status i = "OPTIMAL" ↔ predicted_nitrogen_out i < 8) ∧
    (∀ m, (optimize_primary_stage m).map (fun r => (r.target_efficiency, r.status)) =
      (optimize_primary_stage m).map (fun _ => (88, primary_status (readPrimary m)))) ∧
    (∀ m, (optimize_secondary_stage m).map
        (fun r => (r.target_efficiency, r.do_status, r.biomass_status)) =
      (optimize_secondary_stage m).map
        (fun _ => (92, do_status (readSecondary m), biomass_status (readSecondary m)))) ∧
    (∀ m, (optimize_tertiary_stage m).map
        (fun r => (r.target_efficiency, r.disinfection_status, r.nutrient_status)) =
      (optimize_tertiary_stage m).map
        (fun _ => (85, disinfection_status (readTertiary m), nutrient_status (readTertiary m)))) := by
  refine ⟨fun i => ?_, fun i => ?_, fun i => ?_, fun i => ?_, fun i => ?_,
    fun m => ?_, fun m => ?_, fun m => ?_⟩
  · unfold primary_status
    split_ifs with h <;> simp [h]
  · unfold do_status
    split_ifs with h <;> simp [h]
  · unfold biomass_status
    split_ifs with h <;> simp [h]
  · unfold disinfection_status
    split_ifs with h <;> simp [h]
  · unfold nutrient_status
    split_ifs with h <;> simp [h]
  · by_cases h : (readPrimary m).tss_in = 0 <;>
      simp [optimize_primary_stage, h, Except.map] <;> norm_num
  · by_cases h : (readSecondary m).bod_in = 0 <;>
      simp [optimize_secondary_stage, h, Except.map] <;> norm_num
  · by_cases h : (readTertiary m).nitrogen_in = 0 <;>
      simp [optimize_tertiary_stage, h, Except.map] <;> norm_num

/-- Claim C4.  The aggregator's overall efficiency is the fixed convex
combination `0.3·primary + 0.4·secondary + 0.3·tertiary` of the three
stage efficiencies, the system status is `OPTIMAL` exactly when the
overall efficiency is at least 90, and the spec's test vector 90/95/80
gives overall efficiency 89 with status `ATTENTION_REQUIRED`. -/
theorem claim_C4 :
    (∀ p s t : ℚ, total_efficiency p s t = 0.3 * p + 0.4 * s + 0.3 * t) ∧
    (∀ e : ℚ, system_status e = "OPTIMAL" ↔ 90 ≤ e) ∧
    total_efficiency 90 95 80 = 89 ∧
    system_status (total_efficiency 90 95 80) = "ATTENTION_REQUIRED" ∧
    (∀ b p s t, (build_system_report b p s t).overall_efficiency =
        total_efficiency p.solid_removal_efficiency s.organic_removal_efficiency
          t.nutrient_removal_efficiency ∧
      (build_system_report b p s t).system_status =
        system_status (build_system_report b p s t).overall_efficiency) := by
  refine ⟨fun p s t => by unfold total_efficiency; ring,
    fun e => ?_, by unfold total_efficiency; norm_num,
    by unfold system_status total_efficiency; norm_num,
    fun b p s t => ⟨rfl, rfl⟩⟩
  unfold system_status
  split_ifs with h <;> simp [h]

/-- Claim C5.  The aggregator's consolidated list is the stamped
concatenation of the three stage action lists, stable-sorted by priority
rank and truncated to 10: sorting preserves the original relative order
within every rank (the filter at each rank is unchanged), the output is
sorted by rank, and on the spec's test configuration (Primary HIGH;
Secondary CRITICAL then MEDIUM; Tertiary HIGH) the merged list is
`[CRITICAL(secondary), HIGH(primary), HIGH(tertiary), MEDIUM(secondary)]`. -/
theorem claim_C5 :
    (∀ l n, (sortActions l).filter (fun b => rankOf b == n) =
      l.filter (fun b => rankOf b == n)) ∧
    (∀ l, (sortActions l).Pairwise (fun x y => rankOf x ≤ rankOf y)) ∧
    (∀ pa sa ta, consolidated_actions pa sa ta = (sortActions (all_actions pa sa ta)).take 10) ∧
    consolidated_actions [actHighPrimary] [actCriticalSecondary, actMediumSecondary]
        [actHighTertiary] =
      [stampStage "SECONDARY" actCriticalSecondary, stampStage "PRIMARY" actHighPrimary,
        stampStage "TERTIARY" actHighTertiary, stampStage "SECONDARY" actMediumSecondary] :=
  ⟨sortActions_filter, sortActions_pairwise, fun _ _ _ => rfl, by decide⟩

/-- Claim C6, counterexample.  With `tss_in = 0` the primary optimizer
fails with the raw Python `ZeroDivisionError` from the unguarded
efficiency division: there is no clearly-labeled `DivisionUndefined`
condition and no treat-as-0% result — the raw divide fault propagates. -/
theorem claim_C6_counterexample :
    optimize_primary_stage [("tss_in", 0)] = .error .ZeroDivisionError ∧
    optimize_primary_stage [("tss_in", 0)] ≠ .error .DivisionUndefined ∧
    (optimize_primary_stage [("tss_in", 0)]).isOk = false := by
  have h0 : (readPrimary [("tss_in", 0)]).tss_in = 0 := by
    unfold readPrimary SensorData.get
    simp [List.lookup]
  refine ⟨?_, ?_, ?_⟩ <;> simp [optimize_primary_stage, h0, Except.isOk, Except.toBool]

/-- Claim C6, amended.  When a stage's primary quality metric (TSS for
Primary, BOD for Secondary, Nitrogen for Tertiary) is exactly zero, the
stage optimizer call fails by propagating the raw `ZeroDivisionError` of
the efficiency division — uniformly in all three stages — and succeeds
whenever the metric is nonzero; no `DivisionUndefined` labeling and no
treat-as-0% convention exist in the code. -/
theorem claim_C6_amended : ∀ mp ms mt : SensorData,
    ((readPrimary mp).tss_in = 0 →
      optimize_primary_stage mp = .error .ZeroDivisionError) ∧
    ((readPrimary mp).tss_in ≠ 0 → (optimize_primary_stage mp).isOk = true) ∧
    ((readSecondary ms).bod_in = 0 →
      optimize_secondary_stage ms = .error .ZeroDivisionError) ∧
    ((readSecondary ms).bod_in ≠ 0 → (optimize_secondary_stage ms).isOk = true) ∧
    ((readTertiary mt).nitrogen_in = 0 →
      optimize_tertiary_stage mt = .error .ZeroDivisionError) ∧
    ((readTertiary mt).nitrogen_in ≠ 0 → (optimize_tertiary_stage mt).isOk = true) := by
  intro mp ms mt
  refine ⟨fun h => ?_, fun h => ?_, fun h => ?_, fun h => ?_, fun h => ?_, fun h => ?_⟩ <;>
    simp [optimize_primary_stage, optimize_secondary_stage, optimize_tertiary_stage, h,
      Except.isOk, Except.toBool]

/-- Claim C6, witness for the amended theorem: the secondary stage at
`bod_in = 0` fails with `ZeroDivisionError` and the primary stage on the
empty reading (where `tss_in` defaults to 180) succeeds. -/
theorem claim_C6_witness :
    (readSecondary [("bod_in", 0)]).bod_in = 0 ∧
    optimize_secondary_stage [("bod_in", 0)] = .error .ZeroDivisionError ∧
    (readPrimary []).tss_in ≠ 0 ∧
    (optimize_primary_stage []).isOk = true := by
  have h1 : (readSecondary [("bod_in", 0)]).bod_in = 0 := by
    unfold readSecondary SensorData.get
    simp [List.lookup]
  have h2 : (readPrimary []).tss_in ≠ 0 := by
    unfold readPrimary SensorData.get
    simp [List.lookup]
  exact ⟨h1, (claim_C6_amended [] [("bod_in", 0)] []).2.2.1 h1, h2,
    (claim_C6_amended [] [] []).2.1 h2⟩

/-- Claim C7.  The aggregator's economics: daily cost is the sum of the
primary coagulant, primary polymer, tertiary chlorine and secondary
energy hourly costs times 24; daily volume is the primary flow rate times
24; reuse revenue is volume times the tertiary reuse unit value; net
benefit is revenue minus cost; ROI is `(revenue/cost − 1)·100`; whenever
revenue exceeds the (positive) cost both the net benefit and the ROI are
positive; and the cost is always strictly positive, so the cost-is-zero
case of the ROI division is unreachable. -/
theorem claim_C7 :
    (∀ p s t, daily_operational_cost p s t =
      (coagulant_cost_per_hour p + polymer_cost_per_hour p + chlorine_cost_per_hour t +
        energy_cost_per_hour s) * 24) ∧
    (∀ b p s t, (build_system_report b p s t).economic_analysis.daily_operational_cost =
      ((p.coagulant_cost_per_hour + p.polymer_cost_per_hour + t.chlorine_cost_per_hour)
        + s.energy_cost_per_hour) * 24) ∧
    (∀ b p s t, (build_system_report b p s t).economic_analysis.water_treated_m3_day =
      water_treated_m3_day b) ∧
    (∀ b p s t, (build_system_report b p s t).economic_analysis.water_reuse_value =
      water_treated_m3_day b * t.reuse_classification.value_per_m3) ∧
    (∀ b p s t, (build_system_report b p s t).economic_analysis.net_benefit =
      (build_system_report b p s t).economic_analysis.water_reuse_value -
        (build_system_report b p s t).economic_analysis.daily_operational_cost) ∧
    (∀ b p s t, (build_system_report b p s t).economic_analysis.roi_percentage =
      ((build_system_report b p s t).economic_analysis.water_reuse_value /
        (build_system_report b p s t).economic_analysis.daily_operational_cost - 1) * 100) ∧
    (∀ p s t, 0 < daily_operational_cost p s t) ∧
    (∀ b p s t,
      0 < (build_system_report b p s t).economic_analysis.daily_operational_cost →
      (build_system_report b p s t).economic_analysis.daily_operational_cost <
        (build_system_report b p s t).economic_analysis.water_reuse_value →
      0 < (build_system_report b p s t).economic_analysis.net_benefit ∧
      0 < (build_system_report b p s t).economic_analysis.roi_percentage) := by
  refine ⟨fun p s t => by unfold daily_operational_cost; ring,
    fun b p s t => rfl, fun b p s t => rfl, fun b p s t => rfl, fun b p s t => rfl,
    fun b p s t => rfl, fun p s t => ?_, fun b p s t h0 hlt => ?_⟩
  · exact lt_of_lt_of_le (by norm_num) (daily_cost_lower p s t)
  · refine ⟨sub_pos.mpr hlt, ?_⟩
    have h1 : 1 < (build_system_report b p s t).economic_analysis.water_reuse_value /
        (build_system_report b p s t).economic_analysis.daily_operational_cost :=
      (one_lt_div h0).mpr hlt
    have h2 : (build_system_report b p s t).economic_analysis.roi_percentage =
        ((build_system_report b p s t).economic_analysis.water_reuse_value /
          (build_system_report b p s t).economic_analysis.daily_operational_cost - 1) * 100 :=
      rfl
    rw [h2]
    nlinarith [h1]

/-- Claim C7, witness: on the default-input fixtures the cost is 57360,
the revenue is 84000, and both the net benefit and the ROI come out
positive. -/
theorem claim_C7_witness :
    0 < (build_system_report bundle0 primaryFixture secondaryFixture
      tertiaryFixture).economic_analysis.daily_operational_cost ∧
    (build_system_report bundle0 primaryFixture secondaryFixture
        tertiaryFixture).economic_analysis.daily_operational_cost <
      (build_system_report bundle0 primaryFixture secondaryFixture
        tertiaryFixture).economic_analysis.water_reuse_value ∧
    0 < (build_system_report bundle0 primaryFixture secondaryFixture
      tertiaryFixture).economic_analysis.net_benefit ∧
    0 < (build_system_report bundle0 primaryFixture secondaryFixture
      tertiaryFixture).economic_analysis.roi_percentage := by
  have h0 : 0 < (build_system_report bundle0 primaryFixture secondaryFixture
      tertiaryFixture).economic_analysis.daily_operational_cost := by
    norm_num [build_system_report, bundle0, primaryFixture, secondaryFixture,
      tertiaryFixture, reuseFixtureB, SensorData.get, List.lookup]
  have h1 : (build_system_report bundle0 primaryFixture secondaryFixture
        tertiaryFixture).economic_analysis.daily_operational_cost <
      (build_system_report bundle0 primaryFixture secondaryFixture
        tertiaryFixture).economic_analysis.water_reuse_value := by
    norm_num [build_system_report, bundle0, primaryFixture, secondaryFixture,
      tertiaryFixture, reuseFixtureB, SensorData.get, List.lookup]
  exact ⟨h0, h1,
    (claim_C7.2.2.2.2.2.2.2 bundle0 primaryFixture secondaryFixture tertiaryFixture h0 h1).1,
    (claim_C7.2.2.2.2.2.2.2 bundle0 primaryFixture secondaryFixture tertiaryFixture h0 h1).2⟩

/-- Claim C8.  The primary optimizer on the empty reading succeeds and
uses every documented default (turbidity 150, TSS 180, flow 350, pH 7.0,
temperature 25, and the current-coagulant default 45): the empty reading
reads back as exactly those defaults, supplying the defaults explicitly
produces the identical result, and a reading whose key is not among the
read keys is ignored. -/
theorem claim_C8 :
    (optimize_primary_stage []).isOk = true ∧
    readPrimary [] = primaryInputDefault ∧
    optimize_primary_stage [] = optimize_primary_stage
      [("turbidity_in", 150), ("tss_in", 180), ("flow_rate", 350), ("ph", 7.0),
        ("temperature", 25)] ∧
    (∀ k v m, ¬ k ∈ (["turbidity_in", "tss_in", "flow_rate", "ph", "temperature",
        "current_coagulant"] : List String) →
      optimize_primary_stage ((k, v) :: m) = optimize_primary_stage m) := by
  refine ⟨?_, readPrimary_nil, ?_, ?_⟩
  · have h : (readPrimary []).tss_in ≠ 0 := by
      unfold readPrimary SensorData.get
      simp [List.lookup]
    simp [optimize_primary_stage, h, Except.isOk, Except.toBool]
  · have h : readPrimary [("turbidity_in", 150), ("tss_in", 180), ("flow_rate", 350),
        ("ph", 7.0), ("temperature", 25)] = readPrimary [] := by
      unfold readPrimary SensorData.get
      simp [List.lookup]
    unfold optimize_primary_stage
    rw [h]
  · intro k v m hk
    simp only [List.mem_cons, List.not_mem_nil, or_false, not_or] at hk
    obtain ⟨h1, h2, h3, h4, h5, h6⟩ := hk
    have hb1 : ("turbidity_in" == k) = false := beq_eq_false_iff_ne.mpr (Ne.symm h1)
    have hb2 : ("tss_in" == k) = false := beq_eq_false_iff_ne.mpr (Ne.symm h2)
    have hb3 : ("flow_rate" == k) = false := beq_eq_false_iff_ne.mpr (Ne.symm h3)
    have hb4 : ("ph" == k) = false := beq_eq_false_iff_ne.mpr (Ne.symm h4)
    have hb5 : ("temperature" == k) = false := beq_eq_false_iff_ne.mpr (Ne.symm h5)
    have hb6 : ("current_coagulant" == k) = false := beq_eq_false_iff_ne.mpr (Ne.symm h6)
    have hread : readPrimary ((k, v) :: m) = readPrimary m := by
      unfold readPrimary SensorData.get
      simp [List.lookup, hb1, hb2, hb3, hb4, hb5, hb6]
    unfold optimize_primary_stage
    rw [hread]

/-- Claim C8, witness: the key `"unknown"` is not among the read keys and
a reading carrying it produces the same result as the empty reading. -/
theorem claim_C8_witness :
    ¬ "unknown" ∈ (["turbidity_in", "tss_in", "flow_rate", "ph", "temperature",
      "current_coagulant"] : List String) ∧
    optimize_primary_stage [("unknown", 0)] = optimize_primary_stage [] :=
  ⟨by decide, claim_C8.2.2.2 "unknown" 0 [] (by decide)⟩

/-- Claim C9.  Clamping forces the coagulant dose to at least 20, the
polymer dose to at least 1.5, the chlorine dose to at least 2 and the
aeration intensity to at least 50, so the daily operating cost is at
least the fixed positive constant 37440 (in particular nonzero); the
optimizer results carry exactly those cost fields, and the report's
daily cost is the sum of the result cost fields times 24, so the ROI
denominator is never zero and the cost-is-zero case is unreachable. -/
theorem claim_C9 :
    (∀ p : PrimaryInput, 20 ≤ optimal_coagulant p ∧ 1.5 ≤ optimal_polymer p) ∧
    (∀ t : TertiaryInput, 2.0 ≤ optimal_chlorine t) ∧
    (∀ s : SecondaryInput, 50 ≤ optimal_aeration s) ∧
    (∀ p s t, 37440 ≤ daily_operational_cost p s t ∧ daily_operational_cost p s t ≠ 0) ∧
    (∀ m, (optimize_primary_stage m).map
        (fun r => (r.coagulant_cost_per_hour, r.polymer_cost_per_hour)) =
      (optimize_primary_stage m).map
        (fun _ => (coagulant_cost_per_hour (readPrimary m),
          polymer_cost_per_hour (readPrimary m)))) ∧
    (∀ m, (optimize_secondary_stage m).map (fun r => r.energy_cost_per_hour) =
      (optimize_secondary_stage m).map (fun _ => energy_cost_per_hour (readSecondary m))) ∧
    (∀ m, (optimize_tertiary_stage m).map (fun r => r.chlorine_cost_per_hour) =
      (optimize_tertiary_stage m).map (fun _ => chlorine_cost_per_hour (readTertiary m))) ∧
    (∀ b p s t, (build_system_report b p s t).economic_analysis.daily_operational_cost =
      ((p.coagulant_cost_per_hour + p.polymer_cost_per_hour + t.chlorine_cost_per_hour)
        + s.energy_cost_per_hour) * 24) := by
  refine ⟨fun p => ⟨(clamp_mem 20 70 _ (by norm_num)).1, (clamp_mem 1.5 4.0 _ (by norm_num)).1⟩,
    fun t => (clamp_mem 2.0 5.0 _ (by norm_num)).1,
    fun s => (clamp_mem 50 100 _ (by norm_num)).1,
    fun p s t => ?_, fun m => ?_, fun m => ?_, fun m => ?_, fun b p s t => rfl⟩
  · have h := daily_cost_lower p s t
    refine ⟨h, fun h0 => ?_⟩
    rw [h0] at h
    norm_num at h
  · by_cases h : (readPrimary m).tss_in = 0 <;> simp [optimize_primary_stage, h, Except.map]
  · by_cases h : (readSecondary m).bod_in = 0 <;> simp [optimize_secondary_stage, h, Except.map]
  · by_cases h : (readTertiary m).nitrogen_in = 0 <;> simp [optimize_tertiary_stage, h, Except.map]

/-- Claim C10.  Every stage emits at most 3 priority actions (the
secondary low-DO and high-DO rules are an if/elif pair, hence mutually
exclusive), so the merged stamped list has at most 9 entries, the
truncation to 10 keeps the whole sorted list, and every action fired by
any stage appears in the consolidated list. -/
theorem claim_C10 :
    (∀ i : PrimaryInput, (primary_actions i).length ≤ 3) ∧
    (∀ i : SecondaryInput, (secondary_actions i).length ≤ 3) ∧
    (∀ i : TertiaryInput, (tertiary_actions i).length ≤ 3) ∧
    (∀ pa sa ta : List PriorityAction, pa.length ≤ 3 → sa.length ≤ 3 → ta.length ≤ 3 →
      (all_actions pa sa ta).length ≤ 9 ∧
      consolidated_actions pa sa ta = sortActions (all_actions pa sa ta)) ∧
    (∀ i1 i2 i3 a,
      a ∈ all_actions (primary_actions i1) (secondary_actions i2) (tertiary_actions i3) →
      a ∈ consolidated_actions (primary_actions i1) (secondary_actions i2)
        (tertiary_actions i3)) := by
  refine ⟨primary_actions_length, secondary_actions_length, tertiary_actions_length,
    fun pa sa ta h1 h2 h3 => ⟨?_, consolidated_eq_sort pa sa ta h1 h2 h3⟩,
    fun i1 i2 i3 a ha => ?_⟩
  · unfold all_actions
    simp [List.length_append]
    omega
  · rw [consolidated_eq_sort _ _ _ (primary_actions_length i1) (secondary_actions_length i2)
      (tertiary_actions_length i3)]
    exact mem_sortActions.mpr ha

/-- Claim C10, witness: on the four-action test configuration the merged
list has at most 9 entries and the truncation to 10 discards nothing. -/
theorem claim_C10_witness :
    (all_actions [actHighPrimary] [actCriticalSecondary, actMediumSecondary]
      [actHighTertiary]).length ≤ 9 ∧
    consolidated_actions [actHighPrimary] [actCriticalSecondary, actMediumSecondary]
        [actHighTertiary] =
      sortActions (all_actions [actHighPrimary] [actCriticalSecondary, actMediumSecondary]
        [actHighTertiary]) :=
  claim_C10.2.2.2.1 _ _ _ (by decide) (by decide) (by decide)

/-- Claim C9, witness: on the default stage inputs the daily operating
cost meets the 37440 lower bound and is nonzero. -/
theorem claim_C9_witness :
    37440 ≤ daily_operational_cost primaryInputDefault secondaryInputDefault
      tertiaryInputDefault ∧
    daily_operational_cost primaryInputDefault secondaryInputDefault
      tertiaryInputDefault ≠ 0 :=
  claim_C9.2.2.2.1 primaryInputDefault secondaryInputDefault tertiaryInputDefault
